import Mathlib

/-!
Shallow embedding of the `logging-subscriber` crate
(`src/lib.rs`, `src/logging_writer.rs`, `src/logging_subscriber.rs`).

Conventions of the embedding:
* `log::Level` and `log_filter` numeric values follow the `log` crate
  (`Error = 1 < Warn = 2 < Info = 3 < Debug = 4 < Trace = 5`, with
  `LevelFilter::Off = 0`); the source's guard
  `self.level.as_log() >= record.level()` compares these numbers.
* `console::Style` is modelled as a record of the attributes the crate
  actually sets (colour, bold, dim, bright).  All claims about rendered
  lines are stated modulo ANSI escape codes, so `style.apply_to(x)` in
  `format_event` contributes the plain text `x`: `formatEvent` below is
  the style-stripped rendering of the line.
* `chrono::Local::now().format(..)` is an external wall-clock service;
  `formatEvent` takes the already formatted timestamp as the `now`
  argument.
* stdout is modelled as an abstract sink state `σ` with a caller-supplied
  write action, so "no I/O performed" is provable as insensitivity to the
  sink behaviour; I/O failure is the `Except.error` branch of the sink.
* the process-wide `LOGGING_WRITER : Mutex<LoggingWriter>` is a
  `GlobalState` carrying the writer and a poison flag; `.lock().unwrap()`
  on a poisoned mutex panics, modelled as `Option.none`.
-/

namespace LoggingSubscriber

/-- `log::Level` (also `tracing::Level` — the crate maps them 1:1 in
`on_event`). -/
inductive Level where
  | error
  | warn
  | info
  | debug
  | trace
deriving DecidableEq, Repr

/-- The numeric value the `log` crate uses for `Level` in comparisons
(`Error = 1`, …, `Trace = 5`; larger = more verbose = less severe). -/
def Level.toNum : Level → Nat
  | .error => 1
  | .warn => 2
  | .info => 3
  | .debug => 4
  | .trace => 5

/-- `LevelFilter` (`tracing::metadata::LevelFilter`, converted to
`log::LevelFilter` by `AsLog` in `LoggingWriter::log`). -/
inductive LevelFilter where
  | off
  | error
  | warn
  | info
  | debug
  | trace
deriving DecidableEq, Repr

/-- Numeric value of `log::LevelFilter` (`Off = 0`, …, `Trace = 5`). -/
def LevelFilter.toNum : LevelFilter → Nat
  | .off => 0
  | .error => 1
  | .warn => 2
  | .info => 3
  | .debug => 4
  | .trace => 5

/-- `LevelOutput` from `src/lib.rs` (`Abbreviated`, `Long`, `None`). -/
inductive LevelOutput where
  | abbreviated
  | long
  | none
deriving DecidableEq, Repr

/-- Terminal colours used by the crate's default styles. -/
inductive Color where
  | black
  | red
  | green
  | blue
  | magenta
  | white
deriving DecidableEq, Repr

/-- Model of `console::Style`: the attribute set the crate configures
(`attrBold`/`attrDim`/`attrBright` record whether `.bold()`/`.dim()`/
`.bright()` was applied). -/
structure Style where
  color : Option Color := Option.none
  attrBold : Bool := false
  attrDim : Bool := false
  attrBright : Bool := false
deriving DecidableEq, Repr

/-- `Style::new()` (same as `Style::default()`): no attributes. -/
def Style.new : Style := {}

def Style.white (s : Style) : Style := { s with color := some Color.white }

def Style.red (s : Style) : Style := { s with color := some Color.red }

def Style.green (s : Style) : Style := { s with color := some Color.green }

def Style.blue (s : Style) : Style := { s with color := some Color.blue }

def Style.magenta (s : Style) : Style := { s with color := some Color.magenta }

def Style.black (s : Style) : Style := { s with color := some Color.black }

def Style.bold (s : Style) : Style := { s with attrBold := true }

def Style.dim (s : Style) : Style := { s with attrDim := true }

def Style.bright (s : Style) : Style := { s with attrBright := true }

/-- `console::StyledObject`: a value wrapped with the style that will
paint it. -/
structure StyledObject (D : Type) where
  style : Style
  val : D
deriving DecidableEq, Repr

/-- `Style::apply_to`: wrap a value with this style. -/
def Style.apply_to {D : Type} (s : Style) (v : D) : StyledObject D :=
  ⟨s, v⟩

/-- `LoggingWriter` from `src/lib.rs` (field for field). -/
structure LoggingWriter where
  enabled : Bool
  level : LevelFilter
  defaultStyle : Style
  dateTimeStyle : Style
  styleError : Option Style
  styleWarn : Option Style
  styleDebug : Option Style
  styleTrace : Option Style
  styleInfo : Option Style
  levelStyleError : Style
  levelStyleWarn : Style
  levelStyleDebug : Style
  levelStyleTrace : Style
  levelStyleInfo : Style
  separator : String
  timestampFormat : String
  formatLevel : LevelOutput
  displayLineNumber : Bool
  displayLevel : Bool
  displayTarget : Bool
  displayFilename : Bool
  displayTime : Bool
deriving Repr

/-- `impl Default for LoggingWriter` (`src/logging_writer.rs`, lines
13–42). -/
def LoggingWriter.default : LoggingWriter where
  enabled := true
  level := LevelFilter.debug
  defaultStyle := Style.new.white
  dateTimeStyle := Style.new.dim
  levelStyleError := Style.new.red.bold
  levelStyleWarn := Style.new.magenta.bold.bright
  levelStyleDebug := Style.new.blue.bold
  levelStyleTrace := Style.new.black.bold
  levelStyleInfo := Style.new.green.bright.bold
  styleError := Option.none
  styleWarn := Option.none
  styleInfo := Option.none
  styleDebug := Option.none
  styleTrace := Option.none
  timestampFormat := "%Y-%m-%dT%H:%M:%S%.3f"
  separator := " "
  formatLevel := LevelOutput.abbreviated
  displayLevel := true
  displayTime := true
  displayTarget := false
  displayFilename := false
  displayLineNumber := false

/-- `log::Record` as used by `format_event`: level, target, optional
file and line, and the pre-rendered message (`args`). -/
structure Record where
  level : Level
  target : String
  file : Option String
  line : Option Nat
  args : String
deriving Repr

/-- The long level label of `format_event`'s match (`"ERROR"`,
`"WARN "`, `"INFO "`, `"DEBUG"`, `"TRACE"`). -/
def levelLong : Level → String
  | .error => "ERROR"
  | .warn => "WARN "
  | .info => "INFO "
  | .debug => "DEBUG"
  | .trace => "TRACE"

/-- The abbreviated level label of `format_event`'s match
(`"E"`/`"W"`/`"I"`/`"D"`/`"T"`). -/
def levelAbbr : Level → String
  | .error => "E"
  | .warn => "W"
  | .info => "I"
  | .debug => "D"
  | .trace => "T"

/-- Rust's `format!("{: ^width}", s)`: centre `s` in a field of
`width` characters, extra fill going to the right. -/
def center (width : Nat) (s : String) : String :=
  if width ≤ s.length then s
  else
    let total := width - s.length
    let left := total / 2
    String.mk (List.replicate left ' ') ++ s
      ++ String.mk (List.replicate (total - left) ' ')

/-- `LoggingWriter::format_event` (`src/logging_writer.rs`, lines
67–161), style-stripped: each `write!(output, "{}", style.apply_to(x))`
appends the plain text of `x`.  The per-level `default_style` override
(`style_error` … `style_trace`) and the badge styles only affect ANSI
codes, so they do not appear in the stripped output.  `now` is the
already formatted `chrono::Local::now()` timestamp. -/
def formatEvent (w : LoggingWriter) (now : String) (evt : Record) : String :=
  let levLong := levelLong evt.level
  let levAbbr := levelAbbr evt.level
  let output := ""
  let output := if w.displayTime then output ++ now ++ w.separator else output
  let output :=
    match w.formatLevel with
    | LevelOutput.abbreviated => output ++ center 3 levAbbr ++ w.separator
    | LevelOutput.long => output ++ levLong ++ w.separator
    | LevelOutput.none => output
  let targetWritten := w.displayTarget
  let output := if w.displayTarget then output ++ evt.target else output
  -- filename block: sets `file_written := true` when it runs
  let output :=
    if w.displayFilename then
      (if targetWritten then output ++ w.separator else output)
        ++ "<" ++ evt.file.getD "?"
    else output
  let fileWrittenByFilename := w.displayFilename
  -- line-number block: `if file_written` guards only the ":"
  let output :=
    if w.displayLineNumber then
      (if fileWrittenByFilename then output ++ ":" else output)
        ++ toString (evt.line.getD 0) ++ ">"
    else output
  let fileWritten := fileWrittenByFilename || w.displayLineNumber
  let lineWritten := w.displayLineNumber
  let output := if fileWritten && !lineWritten then output ++ ">" else output
  let output := if fileWritten || targetWritten then output ++ ": " else output
  output ++ evt.args ++ "\n"

/-- An I/O error from the sink (`std::io::Error`), abstract. -/
structure IOErr where
  code : Nat
deriving DecidableEq, Repr

/-- A sink (`io::stdout()`): abstract state `σ` plus a write action
returning the new state and `io::Result<usize>`. -/
def Sink (σ : Type) : Type := String → σ → σ × Except IOErr Nat

/-- `impl Write for LoggingWriter`, `write` (`src/logging_writer.rs`,
lines 45–51): write to stdout when enabled, otherwise `Ok(0)` without
touching the sink. -/
def LoggingWriter.write {σ : Type} (w : LoggingWriter) (sink : Sink σ)
    (s : σ) (buf : String) : σ × Except IOErr Nat :=
  if w.enabled then sink buf s else (s, Except.ok 0)

/-- `LoggingWriter::log` (`src/logging_writer.rs`, lines 59–65): the
guard is `self.level.as_log() >= record.level()` on the `log` crate's
numeric values. -/
def LoggingWriter.log {σ : Type} (w : LoggingWriter) (sink : Sink σ)
    (s : σ) (now : String) (record : Record) : σ × Except IOErr Nat :=
  if record.level.toNum ≤ w.level.toNum then
    w.write sink s (formatEvent w now record)
  else (s, Except.ok 0)

/-- The timestamp segment of `format_event`: when `display_time` is set,
the formatted timestamp followed by the separator. -/
def timeSegment (w : LoggingWriter) (now : String) : String :=
  if w.displayTime then now ++ w.separator else ""

/-- The level segment of `format_event`: governed only by
`format_level` (the `display_level` flag is never consulted by
`format_event`). -/
def levelSegment (w : LoggingWriter) (evt : Record) : String :=
  match w.formatLevel with
  | LevelOutput.abbreviated => center 3 (levelAbbr evt.level) ++ w.separator
  | LevelOutput.long => levelLong evt.level ++ w.separator
  | LevelOutput.none => ""

/-- The target segment of `format_event`. -/
def targetSegment (w : LoggingWriter) (evt : Record) : String :=
  if w.displayTarget then evt.target else ""

/-- The combined filename / line-number bracketed unit of
`format_event` (lines 127–153): `<name` when the filename is shown
(separator-prefixed after a target), `:` only between a shown filename
and a shown line number, the line number always closed by `>`, and a
closing `>` when the filename is shown without a line number. -/
def fileLineSegment (w : LoggingWriter) (evt : Record) : String :=
  (if w.displayFilename then
      (if w.displayTarget then w.separator else "") ++ "<" ++ evt.file.getD "?"
    else "")
  ++ (if w.displayLineNumber then
      (if w.displayFilename then ":" else "") ++ toString (evt.line.getD 0) ++ ">"
    else "")
  ++ (if w.displayFilename && !w.displayLineNumber then ">" else "")

/-- Whether `format_event` emits the `": "` before the message:
`file_written || target_written` at line 155. -/
def contextShown (w : LoggingWriter) : Bool :=
  w.displayTarget || w.displayFilename || w.displayLineNumber

/-- What the claim C5 asserts the file/line unit to be (the spec's
words, for comparison with `fileLineSegment` from the code): the
line-number segment always carries a leading `:`. -/
def claimedFileLineSegment (w : LoggingWriter) (evt : Record) : String :=
  (if w.displayFilename then
      (if w.displayTarget then w.separator else "") ++ "<" ++ evt.file.getD "?"
    else "")
  ++ (if w.displayLineNumber then
      ":" ++ toString (evt.line.getD 0) ++ ">"
    else "")
  ++ (if w.displayFilename && !w.displayLineNumber then ">" else "")

/-- `PoisonError<MutexGuard<LoggingWriter>>`: the error returned by
`Mutex::lock` on a poisoned mutex; it carries the guard. -/
structure PoisonErr where
  guard : LoggingWriter
deriving Repr

/-- The process-wide `LOGGING_WRITER : Arc<Mutex<LoggingWriter>>`:
the writer plus the mutex's poison flag. -/
structure GlobalState where
  writer : LoggingWriter
  poisoned : Bool
deriving Repr

/-- `LOGGING_WRITER.lock()`: `Err(PoisonError)` when the mutex is
poisoned, otherwise the guard. -/
def lockWriter (g : GlobalState) : Except PoisonErr LoggingWriter :=
  if g.poisoned then Except.error ⟨g.writer⟩ else Except.ok g.writer

/-- `set_enabled` (`src/lib.rs`, lines 142–150): on `Ok` set the flag,
on `Err(err)` return `Err(err)`. -/
def set_enabled (value : Bool) (g : GlobalState) :
    GlobalState × Except PoisonErr Unit :=
  match lockWriter g with
  | Except.ok w => ({ g with writer := { w with enabled := value } }, Except.ok ())
  | Except.error err => (g, Except.error err)

/-- `set_level` (`src/lib.rs`, lines 153–161). -/
def set_level (value : LevelFilter) (g : GlobalState) :
    GlobalState × Except PoisonErr Unit :=
  match lockWriter g with
  | Except.ok w => ({ g with writer := { w with level := value } }, Except.ok ())
  | Except.error err => (g, Except.error err)

/-- `AdaptiveStyle` (`src/lib.rs`, lines 92–96). -/
structure AdaptiveStyle where
  light : Style
  dark : Style
deriving DecidableEq, Repr

/-- `AdaptiveStyle::paint` (`src/lib.rs`, lines 115–121).  The detected
background (`AdaptiveStyle::is_dark_background()`, an external
`terminal_light` query) is passed in as `isDark`; the source applies
`self.dark` in both branches of the `if`. -/
def AdaptiveStyle.paint {D : Type} (a : AdaptiveStyle) (isDark : Bool)
    (val : D) : StyledObject D :=
  if isDark then a.dark.apply_to val else a.dark.apply_to val

/-- `impl From<AdaptiveStyle> for console::Style` (`src/lib.rs`,
lines 130–139): this conversion, unlike `paint`, does select by
theme. -/
def AdaptiveStyle.toStyle (a : AdaptiveStyle) (isDark : Bool) : Style :=
  if isDark then a.dark else a.light

/-- `LoggingSubscriberBuilder` (`src/lib.rs`, lines 63–90). -/
structure LoggingSubscriberBuilder where
  displayLineNumber : Bool
  displayLevel : Bool
  displayTime : Bool
  displayTarget : Bool
  displayFilename : Bool
  defaultStyle : Style
  dateTimeStyle : Style
  levelStyleError : Style
  levelStyleWarn : Style
  levelStyleDebug : Style
  levelStyleTrace : Style
  levelStyleInfo : Style
  styleError : Option Style
  styleWarn : Option Style
  styleInfo : Option Style
  styleDebug : Option Style
  styleTrace : Option Style
  minLevel : LevelFilter
  separator : String
  timestampFormat : String
  formatLevel : LevelOutput
deriving Repr

/-- `impl Default for LoggingSubscriberBuilder`
(`src/logging_subscriber.rs`, lines 54–80). -/
def LoggingSubscriberBuilder.default : LoggingSubscriberBuilder where
  displayLineNumber := false
  displayLevel := true
  displayTime := true
  displayTarget := false
  displayFilename := false
  defaultStyle := Style.new.white
  dateTimeStyle := Style.new.dim
  levelStyleError := Style.new.red.bold
  levelStyleWarn := Style.new.magenta.bold.bright
  levelStyleDebug := Style.new.blue.bold
  levelStyleTrace := Style.new.black.bold
  levelStyleInfo := Style.new.green.bright.bold
  styleError := Option.none
  styleWarn := Option.none
  styleInfo := Option.none
  styleDebug := Option.none
  styleTrace := Option.none
  minLevel := LevelFilter.debug
  separator := " "
  timestampFormat := "%H:%M:%S%.3f"
  formatLevel := LevelOutput.long

/-- `impl From<LoggingSubscriberBuilder> for LoggingWriter`
(`src/logging_subscriber.rs`, lines 82–109): start from
`LoggingWriter::default()`, set `enabled = true`, then copy every
builder field.  The builder has no `enabled` field. -/
def writerFromBuilder (b : LoggingSubscriberBuilder) : LoggingWriter :=
  { LoggingWriter.default with
    enabled := true
    level := b.minLevel
    defaultStyle := b.defaultStyle
    styleError := b.styleError
    styleWarn := b.styleWarn
    styleDebug := b.styleDebug
    styleTrace := b.styleTrace
    styleInfo := b.styleInfo
    levelStyleError := b.levelStyleError
    levelStyleWarn := b.levelStyleWarn
    levelStyleDebug := b.levelStyleDebug
    levelStyleTrace := b.levelStyleTrace
    levelStyleInfo := b.levelStyleInfo
    separator := b.separator
    timestampFormat := b.timestampFormat
    formatLevel := b.formatLevel
    displayLineNumber := b.displayLineNumber
    displayLevel := b.displayLevel
    displayTarget := b.displayTarget
    displayFilename := b.displayFilename
    displayTime := b.displayTime
    dateTimeStyle := b.dateTimeStyle }

/-- `LoggingSubscriberBuilder::build` (`src/logging_subscriber.rs`,
lines 113–120): `if let Ok(mut item) = LOGGING_WRITER.lock()` — the
global writer is replaced only when the lock is healthy; the returned
`LoggingSubscriberLayer` carries no state, so the model returns the new
global state. -/
def LoggingSubscriberBuilder.build (b : LoggingSubscriberBuilder)
    (g : GlobalState) : GlobalState :=
  match lockWriter g with
  | Except.ok _ => { g with writer := writerFromBuilder b }
  | Except.error _ => g

/-- One `insert` into the `HashMap<&str, String>` of `ToStringVisitor`:
replace the value when the key is present, otherwise add an entry.  The
list records the map's entries; its order is bookkeeping only — the
map's iteration order is unspecified and is quantified over wherever the
`Display` output is at stake. -/
def hashMapInsert (m : List (String × String)) (k v : String) :
    List (String × String) :=
  if m.any (fun kv => kv.1 = k) then
    m.map (fun kv => if kv.1 = k then (k, v) else kv)
  else m ++ [(k, v)]

/-- `event.record(&mut ToStringVisitor::default())`
(`src/logging_subscriber.rs`, lines 24–52): each `record_*` callback
does `self.0.insert(field.name(), formatted_value)`; the dispatch layer
invokes the callbacks in field-definition order.  `fields` is the list
of (field name, formatted value) pairs in definition order. -/
def visitFields (fields : List (String × String)) : List (String × String) :=
  fields.foldl (fun m kv => hashMapInsert m kv.1 kv.2) []

/-- `impl Display for ToStringVisitor` (`src/logging_subscriber.rs`,
lines 18–22): `self.0.iter().try_for_each(|(_k, v)| write!(f, "{}", v))`
— concatenate the values, keys dropped, in the map's iteration order
(`order`). -/
def toStringVisitorDisplay (order : List (String × String)) : String :=
  order.foldl (fun acc kv => acc ++ kv.2) ""

/-- `PathBuf::from(file).file_name()` as used by `on_event`
(`src/logging_subscriber.rs`, lines 284–289): the final component of
the path, `none` for an empty path or a path ending in `..`. -/
def pathFileName (p : String) : Option String :=
  match ((p.splitOn "/").filter (fun c => c ≠ "")).getLast? with
  | some c => if c = ".." then Option.none else some c
  | Option.none => Option.none

/-- A `tracing::Event` as seen by `on_event`: metadata plus the
structured fields (name, formatted value) in definition order. -/
structure TracingEvent where
  level : Level
  target : String
  file : Option String
  line : Option Nat
  fields : List (String × String)
deriving Repr

/-- `LoggingSubscriberLayer::on_event` (`src/logging_subscriber.rs`,
lines 272–301).  `order` is the iteration order the visitor's `HashMap`
happens to produce.  `LOGGING_WRITER.lock().unwrap()` panics when the
mutex is poisoned: the panic is `Option.none`.  The `let _ =` discards
`log`'s `io::Result`. -/
def onEvent {σ : Type} (g : GlobalState) (sink : Sink σ) (s : σ)
    (now : String) (evt : TracingEvent) (order : List (String × String)) :
    Option (GlobalState × σ) :=
  match lockWriter g with
  | Except.error _ => Option.none
  | Except.ok w =>
    let record : Record :=
      { level := evt.level
        target := evt.target
        file := (evt.file.bind pathFileName)
        line := evt.line
        args := toStringVisitorDisplay order }
    some (g, (w.log sink s now record).1)

/-- A concrete sink over a `String` buffer: append the bytes, report
their count. -/
def strSink : Sink String := fun buf s => (s ++ buf, Except.ok buf.length)

/-- Sample record: an Info event with message `"hello"`. -/
def evtHello : Record :=
  { level := Level.info
    target := "app"
    file := Option.none
    line := Option.none
    args := "hello" }

/-- The configuration of claim C2: minLevel Info, abbreviated labels,
time off, level on, everything else off (as in the default). -/
def c2cfg : LoggingWriter :=
  { LoggingWriter.default with level := LevelFilter.info, displayTime := false }

/-- The configuration of claim C3's counterexample: `display_level`
switched off while `format_level` stays `Abbreviated`. -/
def c3cfg : LoggingWriter :=
  { LoggingWriter.default with displayLevel := false, displayTime := false }

/-- The configuration of claim C5's counterexample: only the
line-number flag set. -/
def c5cfg : LoggingWriter :=
  { LoggingWriter.default with
    displayTime := false
    formatLevel := LevelOutput.none
    displayLineNumber := true }

/-- Sample record with a filename and a line number. -/
def evt42 : Record :=
  { level := Level.info
    target := "app"
    file := some "main.rs"
    line := some 42
    args := "hello" }

/-- Sample tracing event with no fields. -/
def evtEmpty : TracingEvent :=
  { level := Level.info
    target := "app"
    file := Option.none
    line := Option.none
    fields := [] }

/-- A poisoned global state. -/
def gPoisoned : GlobalState :=
  { writer := LoggingWriter.default, poisoned := true }

/-- A healthy global state whose writer was previously disabled. -/
def gHealthy : GlobalState :=
  { writer := { LoggingWriter.default with enabled := false }, poisoned := false }

/-! ## Helper lemmas -/

theorem levelAbbr_length (l : Level) : (levelAbbr l).length = 1 := by
  cases l <;> rfl

theorem levelLong_length (l : Level) : (levelLong l).length = 5 := by
  cases l <;> rfl

theorem center3_levelAbbr (l : Level) :
    center 3 (levelAbbr l) = " " ++ levelAbbr l ++ " " := by
  cases l <;> rfl

theorem levelSegment_empty_iff (w : LoggingWriter) (evt : Record) :
    levelSegment w evt = "" ↔ w.formatLevel = LevelOutput.none := by
  cases h : w.formatLevel <;> simp [levelSegment, h]
  · intro heq
    have hlen := congrArg String.length heq
    rw [String.length_append, center3_levelAbbr, String.length_append,
      String.length_append, levelAbbr_length] at hlen
    simp at hlen
  · intro heq
    have hlen := congrArg String.length heq
    rw [String.length_append, levelLong_length] at hlen
    simp at hlen

/-- `format_event` splits into the segment functions. -/
theorem formatEvent_decomp (w : LoggingWriter) (now : String) (evt : Record) :
    formatEvent w now evt =
      timeSegment w now ++ levelSegment w evt ++ targetSegment w evt
        ++ fileLineSegment w evt ++ (if contextShown w then ": " else "")
        ++ evt.args ++ "\n" := by
  unfold formatEvent timeSegment levelSegment targetSegment fileLineSegment
    contextShown
  cases h1 : w.displayTime <;> cases h2 : w.formatLevel <;>
    cases h3 : w.displayTarget <;> cases h4 : w.displayFilename <;>
    cases h5 : w.displayLineNumber <;>
    simp [String.append_assoc, String.append_empty, String.empty_append]

/-- `format_event` never reads `display_level`. -/
theorem formatEvent_ignores_displayLevel (w : LoggingWriter) (b : Bool)
    (now : String) (evt : Record) :
    formatEvent { w with displayLevel := b } now evt = formatEvent w now evt := rfl

theorem strFoldlAppend (l : List String) (acc : String) :
    l.foldl (fun r s => r ++ s) acc = acc ++ String.join l := by
  induction l generalizing acc with
  | nil =>
    rw [List.foldl_nil]
    exact (String.append_empty acc).symm
  | cons a l ih =>
    have hj : String.join (a :: l) = a ++ String.join l := by
      show (a :: l).foldl (fun r s => r ++ s) "" = a ++ String.join l
      rw [List.foldl_cons, ih, String.empty_append]
    rw [List.foldl_cons, ih, hj, String.append_assoc]

/-- The visitor's `Display` output is the value concatenation of the
iteration order. -/
theorem toStringVisitorDisplay_eq_join (order : List (String × String)) :
    toStringVisitorDisplay order = String.join (order.map Prod.snd) := by
  have h := strFoldlAppend (order.map Prod.snd) ""
  rw [String.empty_append] at h
  rw [toStringVisitorDisplay, ← h, List.foldl_map]

theorem visitFields_go (fields : List (String × String)) :
    ∀ m : List (String × String),
      (fields.map Prod.fst).Nodup →
      (∀ kv ∈ fields, ∀ kv2 ∈ m, kv.1 ≠ kv2.1) →
      fields.foldl (fun m kv => hashMapInsert m kv.1 kv.2) m = m ++ fields := by
  induction fields with
  | nil => intro m _ _; simp
  | cons kv rest ih =>
    intro m hnodup hdisj
    rw [List.map_cons] at hnodup
    obtain ⟨hhead, htail⟩ := List.nodup_cons.mp hnodup
    have hnotin : m.any (fun kv2 => kv2.1 = kv.1) = false := by
      rw [List.any_eq_false]
      intro kv2 hmem
      simp only [decide_eq_true_eq]
      exact fun heq => hdisj kv (by simp) kv2 hmem heq.symm
    have hins : hashMapInsert m kv.1 kv.2 = m ++ [kv] := by
      rw [hashMapInsert, hnotin]
      simp
    rw [List.foldl_cons, hins, ih (m ++ [kv])]
    · simp
    · exact htail
    · intro kv1 h1 kv2 h2
      rcases List.mem_append.mp h2 with h2 | h2
      · exact hdisj kv1 (List.mem_cons_of_mem _ h1) kv2 h2
      · have hkv2 : kv2 = kv := by simpa using h2
        subst hkv2
        intro heq
        apply hhead
        rw [← heq]
        exact List.mem_map_of_mem Prod.fst h1

/-- With distinct field names, the `HashMap` entries are exactly the
fields. -/
theorem visitFields_nodup (fields : List (String × String))
    (h : (fields.map Prod.fst).Nodup) : visitFields fields = fields := by
  have hgo := visitFields_go fields [] h (by simp)
  simpa [visitFields] using hgo

/-! ## Claims -/

/-- C1: for every record, if the sink is disabled or the record's
severity is less severe than the configured minimum level,
`LoggingWriter::log` returns `Ok(0)`, performs no write to the output
sink (the sink state is returned untouched, for every possible sink
behaviour), and returns no error. -/
theorem C1_log_disabled_or_filtered {σ : Type} (w : LoggingWriter)
    (sink : Sink σ) (s : σ) (now : String) (record : Record)
    (h : w.enabled = false ∨ w.level.toNum < record.level.toNum) :
    w.log sink s now record = (s, Except.ok 0) := by
  rcases h with h | h
  · rw [LoggingWriter.log]
    split
    · rw [LoggingWriter.write, h]
      simp
    · rfl
  · rw [LoggingWriter.log, if_neg (by omega)]

/-- C1 witness: a disabled writer logs an Info record as `Ok(0)` with
the sink buffer untouched. -/
theorem C1_log_disabled_or_filtered_witness :
    LoggingWriter.log { LoggingWriter.default with enabled := false }
      strSink "out" "now" evtHello = ("out", Except.ok 0) :=
  C1_log_disabled_or_filtered _ strSink "out" "now" evtHello (Or.inl rfl)

/-- C2: with minLevel Info, abbreviated labels, only the level flag
displayed, an Info event with message `"hello"` renders (style-stripped)
exactly `" I "` + separator + `"hello\n"`. -/
theorem C2_example_scenario (sep now : String) :
    formatEvent { c2cfg with separator := sep } now evtHello
      = " I " ++ sep ++ "hello\n" := by
  have hc : center 3 "I" = " I " := rfl
  have hm : ("hello" : String) ++ "\n" = "hello\n" := rfl
  simp [formatEvent, c2cfg, LoggingWriter.default, evtHello, levelAbbr, hc,
    String.append_assoc, String.empty_append, hm]

/-- C3 counterexample: with `displayFlags.level = false` but
`format_level = Abbreviated`, the level segment is still rendered —
`format_event` never consults the flag, so the claimed removal does not
happen. -/
theorem C3_counterexample :
    c3cfg.displayLevel = false
    ∧ c3cfg.formatLevel ≠ LevelOutput.none
    ∧ formatEvent c3cfg "now" evtHello = " I  hello\n"
    ∧ formatEvent c3cfg "now" evtHello ≠ "hello\n" := by
  refine ⟨rfl, by decide, by decide, by decide⟩

/-- C3 amended: the renderer ignores `displayFlags.level` entirely; the
level segment (label plus separator) appears in the rendered line if and
only if the label mode is not `None` (Suppressed). -/
theorem C3_amended_level_segment (w : LoggingWriter) (b : Bool)
    (now : String) (evt : Record) :
    formatEvent { w with displayLevel := b } now evt = formatEvent w now evt
    ∧ formatEvent w now evt =
        timeSegment w now ++ levelSegment w evt ++ targetSegment w evt
          ++ fileLineSegment w evt ++ (if contextShown w then ": " else "")
          ++ evt.args ++ "\n"
    ∧ (levelSegment w evt = "" ↔ w.formatLevel = LevelOutput.none) :=
  ⟨formatEvent_ignores_displayLevel w b now evt,
   formatEvent_decomp w now evt,
   levelSegment_empty_iff w evt⟩

/-- C4: when the level segment is rendered, the abbreviated label is
the single capital letter E/W/I/D/T centred in exactly 3 characters and
the long label is the severity word padded to exactly 5 characters. -/
theorem C4_level_label_widths (w : LoggingWriter) (evt : Record) :
    levelSegment w evt =
      (match w.formatLevel with
        | LevelOutput.abbreviated =>
            " " ++ levelAbbr evt.level ++ " " ++ w.separator
        | LevelOutput.long => levelLong evt.level ++ w.separator
        | LevelOutput.none => "")
    ∧ (levelAbbr evt.level).length = 1
    ∧ (" " ++ levelAbbr evt.level ++ " ").length = 3
    ∧ (center 3 (levelAbbr evt.level)).length = 3
    ∧ (levelLong evt.level).length = 5
    ∧ levelAbbr evt.level ∈ ["E", "W", "I", "D", "T"]
    ∧ levelLong evt.level ∈ ["ERROR", "WARN ", "INFO ", "DEBUG", "TRACE"] := by
  refine ⟨?_, levelAbbr_length _, ?_, ?_, levelLong_length _, ?_, ?_⟩
  · cases h : w.formatLevel <;>
      simp [levelSegment, h, center3_levelAbbr, String.append_assoc]
  · rw [String.length_append, String.length_append, levelAbbr_length]
    rfl
  · rw [center3_levelAbbr, String.length_append, String.length_append,
      levelAbbr_length]
    rfl
  · cases evt.level <;> simp [levelAbbr]
  · cases evt.level <;> simp [levelLong]

/-- C5 counterexample: with only `lineNumber` displayed the rendered
unit is `42>` — no `:` and no `<` — whereas the claimed line-number
segment `:` + line + `>` would give `:42>`. -/
theorem C5_counterexample :
    c5cfg.displayFilename = false
    ∧ c5cfg.displayLineNumber = true
    ∧ fileLineSegment c5cfg evt42 = "42>"
    ∧ claimedFileLineSegment c5cfg evt42 = ":42>"
    ∧ fileLineSegment c5cfg evt42 ≠ claimedFileLineSegment c5cfg evt42
    ∧ formatEvent c5cfg "now" evt42 = "42>: hello\n" := by
  refine ⟨rfl, rfl, by decide, by decide, by decide, by decide⟩

/-- C5 amended: the file/line bracketed unit as the code produces it —
the filename part is separator-prefixed after a target and opens with
`<`; the `:` appears only between a shown filename and a shown line
number; a line number always closes with `>`; a filename without a line
number closes with `>` immediately; with neither flag no bracket is
emitted; and `": "` precedes the message exactly when the target or the
file/line unit was shown. -/
theorem C5_amended_file_line_unit (w : LoggingWriter) (now : String)
    (evt : Record) :
    formatEvent w now evt =
      timeSegment w now ++ levelSegment w evt ++ targetSegment w evt
        ++ fileLineSegment w evt ++ (if contextShown w then ": " else "")
        ++ evt.args ++ "\n"
    ∧ fileLineSegment w evt =
        (match w.displayFilename, w.displayLineNumber with
          | true, false =>
              (if w.displayTarget then w.separator else "") ++ "<"
                ++ evt.file.getD "?" ++ ">"
          | true, true =>
              (if w.displayTarget then w.separator else "") ++ "<"
                ++ evt.file.getD "?" ++ ":" ++ toString (evt.line.getD 0) ++ ">"
          | false, true => toString (evt.line.getD 0) ++ ">"
          | false, false => "")
    ∧ contextShown w
        = (w.displayTarget || w.displayFilename || w.displayLineNumber) := by
  refine ⟨formatEvent_decomp w now evt, ?_, rfl⟩
  cases h4 : w.displayFilename <;> cases h5 : w.displayLineNumber <;>
    simp [fileLineSegment, h4, h5, String.append_assoc, String.append_empty,
      String.empty_append]

/-- C6 counterexample: the builder's default timestamp format
(`"%H:%M:%S%.3f"`, time-only) differs from the writer default's
ISO-8601 `"%Y-%m-%dT%H:%M:%S%.3f"`, so the builder defaults are not
"the same except levelLabelMode". -/
theorem C6_counterexample :
    LoggingWriter.default.timestampFormat = "%Y-%m-%dT%H:%M:%S%.3f"
    ∧ LoggingSubscriberBuilder.default.timestampFormat = "%H:%M:%S%.3f"
    ∧ LoggingSubscriberBuilder.default.timestampFormat
        ≠ LoggingWriter.default.timestampFormat := by
  refine ⟨rfl, rfl, by decide⟩

/-- C6 amended: the writer defaults are as claimed (enabled, minLevel
Debug, ISO-8601 timestamp with milliseconds, abbreviated labels,
single-space separator, time and level flags only); the builder
defaults agree except `levelLabelMode = Long` and the time-only
timestamp format `"%H:%M:%S%.3f"`. -/
theorem C6_amended_defaults :
    LoggingWriter.default.enabled = true
    ∧ LoggingWriter.default.level = LevelFilter.debug
    ∧ LoggingWriter.default.timestampFormat = "%Y-%m-%dT%H:%M:%S%.3f"
    ∧ LoggingWriter.default.formatLevel = LevelOutput.abbreviated
    ∧ LoggingWriter.default.separator = " "
    ∧ LoggingWriter.default.displayTime = true
    ∧ LoggingWriter.default.displayLevel = true
    ∧ LoggingWriter.default.displayTarget = false
    ∧ LoggingWriter.default.displayFilename = false
    ∧ LoggingWriter.default.displayLineNumber = false
    ∧ LoggingSubscriberBuilder.default.formatLevel = LevelOutput.long
    ∧ LoggingSubscriberBuilder.default.minLevel = LevelFilter.debug
    ∧ LoggingSubscriberBuilder.default.timestampFormat = "%H:%M:%S%.3f"
    ∧ LoggingSubscriberBuilder.default.separator = " "
    ∧ LoggingSubscriberBuilder.default.displayTime = true
    ∧ LoggingSubscriberBuilder.default.displayLevel = true
    ∧ LoggingSubscriberBuilder.default.displayTarget = false
    ∧ LoggingSubscriberBuilder.default.displayFilename = false
    ∧ LoggingSubscriberBuilder.default.displayLineNumber = false := by
  decide

/-- C7 counterexample: the visitor stores fields in a `HashMap`, whose
iteration order is unspecified; the reversed order is a permutation of
the entries the map may iterate in, and it renders `"21"`, not the
field-definition-order concatenation `"12"`. -/
theorem C7_counterexample :
    List.Perm [("b", "2"), ("a", "1")] (visitFields [("a", "1"), ("b", "2")])
    ∧ toStringVisitorDisplay [("b", "2"), ("a", "1")] = "21"
    ∧ toStringVisitorDisplay [("b", "2"), ("a", "1")]
        ≠ String.join ([("a", "1"), ("b", "2")].map Prod.snd) := by
  decide

/-- C7 amended: the rendered message is the concatenation of all field
values with no key labels, in the `HashMap`'s iteration order — a
permutation of the recorded fields (for distinct field names), not
necessarily field-definition order. -/
theorem C7_amended_message_concatenation
    (fields order : List (String × String))
    (hnodup : (fields.map Prod.fst).Nodup)
    (hperm : order.Perm (visitFields fields)) :
    toStringVisitorDisplay order = String.join (order.map Prod.snd)
    ∧ (order.map Prod.snd).Perm (fields.map Prod.snd) := by
  constructor
  · exact toStringVisitorDisplay_eq_join order
  · have h1 : visitFields fields = fields := visitFields_nodup fields hnodup
    have h2 := hperm.map Prod.snd
    rw [h1] at h2
    exact h2

/-- C7 witness. -/
theorem C7_amended_message_concatenation_witness :
    toStringVisitorDisplay [("b", "2"), ("a", "1")]
      = String.join ([("b", "2"), ("a", "1")].map Prod.snd)
    ∧ ([("b", "2"), ("a", "1")].map Prod.snd).Perm
        ([("a", "1"), ("b", "2")].map Prod.snd) :=
  C7_amended_message_concatenation [("a", "1"), ("b", "2")]
    [("b", "2"), ("a", "1")] (by decide) (by decide)

/-- C8 counterexample: with the configuration lock poisoned, the render
path (`on_event`) calls `.lock().unwrap()` and panics (modelled
`Option.none`) instead of skipping the event. -/
theorem C8_counterexample :
    onEvent gPoisoned strSink "out" "now" evtEmpty [] = Option.none := rfl

/-- C8 amended: on a poisoned lock, `set_enabled` and `set_level`
return the distinct `PoisonError` value to the caller; the render path,
however, panics at `.unwrap()` rather than skipping the event (its
`let _ =` discards only `log`'s I/O result). -/
theorem C8_amended_poisoned_lock {σ : Type} (g : GlobalState)
    (h : g.poisoned = true) (v : Bool) (lv : LevelFilter)
    (sink : Sink σ) (s : σ) (now : String) (evt : TracingEvent)
    (order : List (String × String)) :
    (set_enabled v g).2 = Except.error ⟨g.writer⟩
    ∧ (set_level lv g).2 = Except.error ⟨g.writer⟩
    ∧ onEvent g sink s now evt order = Option.none := by
  refine ⟨?_, ?_, ?_⟩ <;> simp [set_enabled, set_level, onEvent, lockWriter, h]

/-- C8 witness. -/
theorem C8_amended_poisoned_lock_witness :
    (set_enabled false gPoisoned).2 = Except.error ⟨gPoisoned.writer⟩
    ∧ (set_level LevelFilter.info gPoisoned).2
        = Except.error ⟨gPoisoned.writer⟩
    ∧ onEvent gPoisoned strSink "out" "now" evtEmpty [] = Option.none :=
  C8_amended_poisoned_lock gPoisoned rfl false LevelFilter.info strSink
    "out" "now" evtEmpty []

/-- C9: `AdaptiveStyle::paint` produces the same styled value whatever
the detected terminal background is — both branches of its `if` apply
the dark variant. -/
theorem C9_paint_theme_insensitive {D : Type} (a : AdaptiveStyle)
    (bg1 bg2 : Bool) (v : D) :
    a.paint bg1 v = a.paint bg2 v
    ∧ a.paint bg1 v = a.dark.apply_to v := by
  cases bg1 <;> cases bg2 <;> simp [AdaptiveStyle.paint]

/-- C10: the conversion installed by `build()` hard-codes
`enabled = true` and the builder has no enabled field, so every
`build()` on a healthy lock re-enables the sink — also right after a
`set_enabled(false)` call. -/
theorem C10_build_reenables (b : LoggingSubscriberBuilder) (g : GlobalState)
    (h : g.poisoned = false) :
    (writerFromBuilder b).enabled = true
    ∧ (b.build g).writer.enabled = true
    ∧ (b.build ((set_enabled false g).1)).writer.enabled = true := by
  refine ⟨rfl, ?_, ?_⟩
  · simp [LoggingSubscriberBuilder.build, lockWriter, h, writerFromBuilder]
  · simp [set_enabled, lockWriter, h, LoggingSubscriberBuilder.build,
      writerFromBuilder]

/-- C10 witness: building the default builder over a disabled writer
re-enables the sink. -/
theorem C10_build_reenables_witness :
    (writerFromBuilder LoggingSubscriberBuilder.default).enabled = true
    ∧ (LoggingSubscriberBuilder.default.build gHealthy).writer.enabled = true
    ∧ (LoggingSubscriberBuilder.default.build
        ((set_enabled false gHealthy).1)).writer.enabled = true :=
  C10_build_reenables LoggingSubscriberBuilder.default gHealthy rfl

end LoggingSubscriber
